import Mathlib

/-!
Shallow embedding of the Probe and Capture Pipeline of the Website_Monitoring
repository (file src/app/api/screenshot/route.ts).

Modelling conventions:
- JavaScript strings are Lean strings; the JS operations toLowerCase,
  includes, startsWith and substring(0, n) are re-implemented over the
  character list String.data so that they evaluate inside the kernel.
- Millisecond timestamps (Date.now readings, certificate valid_from and
  valid_to) are integers; the ISO date formatting of certificate dates is
  abstracted away: a date field carries the underlying timestamp instead of
  its rendered text.
- External effects (the fetch call, the TLS handshake, the ssl-checker
  package, the headless-browser attempts) are parameters: each function takes
  an explicit outcome describing what the outside world did, and the handling
  of that outcome in the code is translated branch by branch.
-/

/-- JS toLowerCase, character-wise. -/
def jsToLower (s : String) : String := String.mk (s.data.map Char.toLower)

/-- Does pat occur at the head of s? Helper for the JS string tests. -/
def listStartsWith : List Char → List Char → Bool
  | _, [] => true
  | [], _ :: _ => false
  | a :: as, b :: bs => a == b && listStartsWith as bs

/-- Does pat occur contiguously anywhere in s? -/
def listHasSub (s pat : List Char) : Bool :=
  match s with
  | [] => pat.isEmpty
  | _ :: rest => listStartsWith s pat || listHasSub rest pat

/-- JS startsWith. -/
def jsStartsWith (s pat : String) : Bool := listStartsWith s.data pat.data

/-- JS includes: contiguous-substring test. -/
def jsIncludes (s pat : String) : Bool := listHasSub s.data pat.data

/-- JS substring(0, n). -/
def jsSubstringTo (s : String) (n : Nat) : String := String.mk (s.data.take n)

/-- JS disjunction on two optional date values (undefined is none). -/
def jsOr (a b : Option Int) : Option Int :=
  match a with
  | some x => some x
  | none => b

/-- The hard-coded specialSites list of route.ts (lines 32-46). -/
def specialSites : List String :=
  ["amazon.com", "amazon.co.uk", "amazon.de", "amazon.fr", "amazon.in",
   "amazon.ca", "amazon.com.au", "ebay.com", "netflix.com", "facebook.com",
   "instagram.com", "twitter.com", "linkedin.com"]

/-- route.ts needsSpecialHandling (lines 31-49): the JS test
specialSites.some(site in url.toLowerCase()) on the whole URL string. -/
def needsSpecialHandling (url : String) : Bool :=
  specialSites.any (fun site => jsIncludes (jsToLower url) site)

/-- The per-site status values up, down, error. -/
inductive SiteStatus where
  | up
  | down
  | error
deriving DecidableEq

/-- The SSL-information record produced by both certificate strategies
(the return type of getSSLCertificateInfo and checkSSLWithChecker).
Absent (undefined) optional fields are none; date fields carry the
underlying timestamp, see the module comment. -/
structure SslInfo where
  ssl_valid : Bool
  ssl_renew_date : Option Int := none
  ssl_issued_date : Option Int := none
  ssl_expire_date : Option Int := none
  ssl_expires : Option Int := none
  ssl_days_remaining : Option Int := none
deriving DecidableEq

/-- What the raw TLS handshake of getSSLCertificateInfo did: socket error,
the 5-second timeout, a peer certificate without usable valid_from and
valid_to fields, or a certificate carrying both dates. -/
inductive TlsOutcome where
  | connectError
  | timeoutExpired
  | missingCertDates
  | peerCert (validFrom validTo : Int)
deriving DecidableEq

/-- What the external ssl-checker package returned inside
checkSSLWithChecker. -/
structure CheckerData where
  valid : Bool
  validFrom : Option Int := none
  validTo : Option Int := none
  daysRemaining : Option Int := none
deriving DecidableEq

/-- The ssl-checker call either throws or returns a record. -/
inductive CheckerOutcome where
  | throws
  | returns (d : CheckerData)
deriving DecidableEq

/-- The divisor 1000 * 60 * 60 * 24 of route.ts line 85. -/
def msPerDay : Int := 1000 * 60 * 60 * 24

/-- route.ts getSSLCertificateInfo (lines 52-113): non-HTTPS URLs
short-circuit to an invalid record before any connection is made; socket
errors, the 5s timeout and a missing-date certificate all resolve to an
invalid record; a certificate with both dates yields
valid = (validFrom ≤ now and now ≤ validTo) and
daysRemaining = floor of (validTo - now) / msPerDay. -/
def getSSLCertificateInfo (now : Int) (tls : TlsOutcome) (url : String) : SslInfo :=
  if jsStartsWith url "https://" = false then { ssl_valid := false }
  else
    match tls with
    | TlsOutcome.connectError => { ssl_valid := false }
    | TlsOutcome.timeoutExpired => { ssl_valid := false }
    | TlsOutcome.missingCertDates => { ssl_valid := false }
    | TlsOutcome.peerCert validFrom validTo =>
      { ssl_valid := decide (validFrom ≤ now ∧ now ≤ validTo),
        ssl_expire_date := some validTo,
        ssl_expires := some validTo,
        ssl_days_remaining := some (Int.fdiv (validTo - now) msPerDay),
        ssl_renew_date := some validFrom,
        ssl_issued_date := some validFrom }

/-- route.ts checkSSLWithChecker (lines 116-145): non-HTTPS URLs
short-circuit; a throw yields an invalid record; otherwise the package
fields are copied, validFrom doubling as renew and issued date, validTo
doubling as expire date and expires alias. -/
def checkSSLWithChecker (checker : CheckerOutcome) (url : String) : SslInfo :=
  if jsStartsWith url "https://" = false then { ssl_valid := false }
  else
    match checker with
    | CheckerOutcome.throws => { ssl_valid := false }
    | CheckerOutcome.returns d =>
      { ssl_valid := d.valid,
        ssl_renew_date := d.validFrom,
        ssl_issued_date := d.validFrom,
        ssl_expire_date := d.validTo,
        ssl_expires := d.validTo,
        ssl_days_remaining := d.daysRemaining }

/-- What the fetch call of checkWebsiteStatus did: a response with its
ok flag, an AbortError (the 30s timeout fired), or another thrown error
whose message is some m when truthy and none when absent. -/
inductive FetchOutcome where
  | response (ok : Bool)
  | abortError
  | failure (message : Option String)
deriving DecidableEq

/-- The external-world inputs of one checkWebsiteStatus call: the two
Date.now readings, the clock value used by the certificate check, and the
three network outcomes. -/
structure ProbeEnv where
  t0 : Int
  t1 : Int
  now : Int
  fetch : FetchOutcome
  tls : TlsOutcome
  checker : CheckerOutcome

/-- The two-strategy SSL fallback inlined twice in checkWebsiteStatus
(lines 184-205 and 226-246): sslInfo starts as the invalid record, is
replaced by the record of the native strategy only if that record is
valid, else by the record of the checker strategy only if that one is
valid. -/
def selectSslInfo (pe : ProbeEnv) (url : String) : SslInfo :=
  if jsStartsWith url "https://" then
    let nativeSslInfo := getSSLCertificateInfo pe.now pe.tls url
    if nativeSslInfo.ssl_valid then nativeSslInfo
    else
      let checkerSslInfo := checkSSLWithChecker pe.checker url
      if checkerSslInfo.ssl_valid then checkerSslInfo
      else { ssl_valid := false }
  else { ssl_valid := false }

/-- The record returned by checkWebsiteStatus (route.ts lines 147-157). -/
structure StatusResult where
  status : SiteStatus
  ssl_valid : Bool
  ssl_renew_date : Option Int
  ssl_issued_date : Option Int
  ssl_expire_date : Option Int
  ssl_expires : Option Int
  ssl_days_remaining : Option Int
  response_time : Option Int
  error_message : Option String
deriving DecidableEq

/-- The catch-branch of checkWebsiteStatus (lines 217-259) after the
error message has been chosen: status error, ssl_valid from the fallback
selection, aliased date fields, measured response time. -/
def mkErrorResult (pe : ProbeEnv) (url : String) (emsg : String) : StatusResult :=
  let sslInfo := selectSslInfo pe url
  { status := SiteStatus.error,
    ssl_valid := sslInfo.ssl_valid,
    ssl_renew_date := sslInfo.ssl_renew_date,
    ssl_issued_date := jsOr sslInfo.ssl_issued_date sslInfo.ssl_renew_date,
    ssl_expire_date := sslInfo.ssl_expire_date,
    ssl_expires := jsOr sslInfo.ssl_expires sslInfo.ssl_expire_date,
    ssl_days_remaining := sslInfo.ssl_days_remaining,
    response_time := some (pe.t1 - pe.t0),
    error_message := some emsg }

/-- route.ts checkWebsiteStatus (lines 147-260). On a received response:
status from response.ok, and
ssl_valid = startsWith https AND (ok OR sslInfo.ssl_valid).
On AbortError: message "Request timeout". On another throw: the truthy
message of the error truncated to 100 characters, else
"Connection failed". -/
def checkWebsiteStatus (pe : ProbeEnv) (url : String) : StatusResult :=
  match pe.fetch with
  | FetchOutcome.response ok =>
    let sslInfo := selectSslInfo pe url
    { status := if ok then SiteStatus.up else SiteStatus.down,
      ssl_valid := jsStartsWith url "https://" && (ok || sslInfo.ssl_valid),
      ssl_renew_date := sslInfo.ssl_renew_date,
      ssl_issued_date := jsOr sslInfo.ssl_issued_date sslInfo.ssl_renew_date,
      ssl_expire_date := sslInfo.ssl_expire_date,
      ssl_expires := jsOr sslInfo.ssl_expires sslInfo.ssl_expire_date,
      ssl_days_remaining := sslInfo.ssl_days_remaining,
      response_time := some (pe.t1 - pe.t0),
      error_message := none }
  | FetchOutcome.abortError => mkErrorResult pe url "Request timeout"
  | FetchOutcome.failure msgO =>
    mkErrorResult pe url
      (match msgO with
       | some m => jsSubstringTo m 100
       | none => "Connection failed")

/-- The outcome of one headless-browser attempt inside takeScreenshot:
either the whole launch-navigate-capture sequence succeeded, or some step
threw an error whose message is some m when truthy. -/
inductive AttemptOutcome where
  | success
  | failure (message : Option String)
deriving DecidableEq

/-- The retry guard of route.ts lines 372-377 (without the attempt bound):
the thrown error has a truthy message containing "timeout" or
"Navigation". -/
def retriableMessage : Option String → Bool
  | some m => jsIncludes m "timeout" || jsIncludes m "Navigation"
  | none => false

/-- The screenshot path built at route.ts lines 354 and 364 from the site
id and the Date.now reading ts. -/
def screenshotPathOf (id ts : Nat) : String :=
  "/screenshots/" ++ toString id ++ "_" ++ toString ts ++ ".png"

/-- route.ts takeScreenshot (lines 262-393), instrumented with the number
of browser launches it performs (second component). The outcome of the
browser attempt with a given retryCount is shot retryCount, and
shotTs retryCount is its Date.now reading. A failing attempt whose error
passes the retry guard while retryCount < 1 recurses with retryCount + 1
after closing the browser; every attempt launches exactly one browser. -/
def takeScreenshot (shot : Nat → AttemptOutcome) (shotTs : Nat → Nat)
    (url : String) (id : Nat) (retryCount : Nat) : Option String × Nat :=
  match shot retryCount with
  | AttemptOutcome.success => (some (screenshotPathOf id (shotTs retryCount)), 1)
  | AttemptOutcome.failure msg =>
    if h : retryCount < 1 ∧ retriableMessage msg = true then
      let r := takeScreenshot shot shotTs url id (retryCount + 1)
      (r.1, r.2 + 1)
    else (none, 1)
termination_by 1 - retryCount
decreasing_by
  omega

/-- The Website input records consumed by POST. -/
structure Website where
  id : Nat
  url : String
deriving DecidableEq

/-- The ScreenshotResult record of route.ts lines 9-22. -/
structure ScreenshotResult where
  id : Nat
  url : String
  screenshot_path : Option String
  status : SiteStatus
  ssl_valid : Bool
  ssl_renew_date : Option Int
  ssl_issued_date : Option Int
  ssl_expire_date : Option Int
  ssl_expires : Option Int
  ssl_days_remaining : Option Int
  response_time : Option Int
  error_message : Option String
deriving DecidableEq

/-- The external-world inputs of one loop iteration of POST: the probe
environment plus the browser-attempt outcomes and their timestamps. -/
structure SiteEnv where
  probe : ProbeEnv
  shot : Nat → AttemptOutcome
  shotTs : Nat → Nat

/-- One iteration of the POST loop (route.ts lines 409-446): probe, then
unconditionally capture, then the status and SSL override of lines
421-428 and the final record of lines 430-443. -/
def processWebsite (env : Website → SiteEnv) (w : Website) : ScreenshotResult :=
  let statusCheck := checkWebsiteStatus (env w).probe w.url
  let screenshot_path := (takeScreenshot (env w).shot (env w).shotTs w.url w.id 0).1
  let statusCheck1 :=
    if screenshot_path.isSome = true ∧ statusCheck.status ≠ SiteStatus.up then
      { statusCheck with
          status := SiteStatus.up,
          ssl_valid :=
            if jsStartsWith w.url "https://" then true else statusCheck.ssl_valid }
    else statusCheck
  { id := w.id,
    url := w.url,
    screenshot_path := screenshot_path,
    status := statusCheck1.status,
    ssl_valid := statusCheck1.ssl_valid,
    ssl_renew_date := statusCheck1.ssl_renew_date,
    ssl_issued_date := statusCheck1.ssl_issued_date,
    ssl_expire_date := statusCheck1.ssl_expire_date,
    ssl_expires := statusCheck1.ssl_expires,
    ssl_days_remaining := statusCheck1.ssl_days_remaining,
    response_time := statusCheck1.response_time,
    error_message :=
      if screenshot_path.isSome then none else statusCheck1.error_message }

/-- A response of the POST handler: the JSON result list, or an error
payload with its HTTP status code. -/
inductive ApiResponse where
  | ok (results : List ScreenshotResult)
  | jsonError (httpStatus : Nat) (message : String)
deriving DecidableEq

/-- route.ts POST (lines 395-456). A missing or non-array websites field
is none; it and the empty list are rejected with HTTP 400 before any site
is processed; otherwise the sites are processed sequentially and every
result is pushed in order. -/
def POST (env : Website → SiteEnv) (websites : Option (List Website)) : ApiResponse :=
  match websites with
  | none => ApiResponse.jsonError 400 "No websites provided"
  | some ws =>
    if ws.length = 0 then ApiResponse.jsonError 400 "No websites provided"
    else ApiResponse.ok (ws.map (processWebsite env))

/-- A concrete environment: the probe receives a non-ok response (down),
both certificate strategies fail, the browser attempt succeeds at once. -/
def probeEnvA : ProbeEnv :=
  { t0 := 1000, t1 := 1250, now := 0,
    fetch := FetchOutcome.response false,
    tls := TlsOutcome.connectError,
    checker := CheckerOutcome.throws }

/-- Site-level environment built on probeEnvA with an immediately
successful screenshot attempt. -/
def siteEnvA : SiteEnv :=
  { probe := probeEnvA, shot := fun _ => AttemptOutcome.success,
    shotTs := fun _ => 7 }

/-- Constant environment assigning siteEnvA to every site. -/
def envA : Website → SiteEnv := fun _ => siteEnvA

/-- A concrete HTTPS site. -/
def siteA : Website := { id := 1, url := "https://example.com" }

/-- A concrete environment where the native strategy sees an expired
certificate (diagnostic dates present, valid = false) and the checker
strategy throws. -/
def probeEnvC5 : ProbeEnv :=
  { t0 := 0, t1 := 1, now := 200,
    fetch := FetchOutcome.response true,
    tls := TlsOutcome.peerCert 0 100,
    checker := CheckerOutcome.throws }

/-- A concrete environment where the HTTP request aborts on the 30s
timeout while the native TLS strategy still sees a currently-valid
certificate. -/
def probeEnvErr : ProbeEnv :=
  { t0 := 0, t1 := 30000, now := 50,
    fetch := FetchOutcome.abortError,
    tls := TlsOutcome.peerCert 0 100,
    checker := CheckerOutcome.throws }

/-- A concrete environment where the HTTP request throws an error whose
message is falsy, with both certificate strategies failing. -/
def probeEnvFalsy : ProbeEnv :=
  { t0 := 0, t1 := 40, now := 50,
    fetch := FetchOutcome.failure none,
    tls := TlsOutcome.connectError,
    checker := CheckerOutcome.throws }

/-- A browser-attempt environment that fails every attempt with a
navigation-timeout message. -/
def shotTimeoutTwice : Nat → AttemptOutcome :=
  fun _ => AttemptOutcome.failure (some "Navigation timeout of 60000 ms exceeded")

/-- Searching for the empty pattern always succeeds, as for the JS
includes test. -/
theorem listHasSub_nil_pat (s : List Char) : listHasSub s [] = true := by
  cases s <;> simp [listHasSub, listStartsWith]

/-- A list is a head-occurrence of itself in front of any tail. -/
theorem listStartsWith_append (pat rest : List Char) :
    listStartsWith (pat ++ rest) pat = true := by
  induction pat with
  | nil => simp [listStartsWith]
  | cons a as ih => simp [listStartsWith, ih]

/-- A pattern occurs in any list that embeds it contiguously. -/
theorem listHasSub_append (x pat y : List Char) :
    listHasSub (x ++ (pat ++ y)) pat = true := by
  induction x with
  | nil =>
    cases hp : pat with
    | nil => simpa using listHasSub_nil_pat y
    | cons p ps =>
      simp only [List.nil_append, hp]
      simp [listHasSub, listStartsWith_append]
      left
      have := listStartsWith_append (p :: ps) y
      simpa [hp, listStartsWith] using this
  | cons c x ih =>
    simp only [List.cons_append, listHasSub]
    simp [ih]

/-- The final screenshot path is exactly the capture output. -/
theorem processWebsite_screenshot_path (env : Website → SiteEnv) (w : Website) :
    (processWebsite env w).screenshot_path =
      (takeScreenshot (env w).shot (env w).shotTs w.url w.id 0).1 := rfl

/-- The override of the orchestrator never touches the measured response
time: the final record copies it from the probe result. -/
theorem processWebsite_response_time (env : Website → SiteEnv) (w : Website) :
    (processWebsite env w).response_time =
      (checkWebsiteStatus (env w).probe w.url).response_time := by
  unfold processWebsite
  dsimp only
  split <;> rfl

/-- Both branches of checkWebsiteStatus measure the elapsed time between
the two clock readings. -/
theorem checkWebsiteStatus_response_time (pe : ProbeEnv) (url : String) :
    (checkWebsiteStatus pe url).response_time = some (pe.t1 - pe.t0) := by
  unfold checkWebsiteStatus
  cases hf : pe.fetch <;> rfl

/-- Claim C1: reconciliation override. For every environment and site, a
present screenshot path forces final status up; when additionally the
probe status was not up, the override fired and for https URLs ssl_valid
is forced true; the final error message is absent whenever a screenshot
exists and otherwise equals the probe diagnostic. -/
theorem C1_reconciliation_override (env : Website → SiteEnv) (w : Website) :
    ((processWebsite env w).screenshot_path.isSome = true →
        (processWebsite env w).status = SiteStatus.up) ∧
    ((processWebsite env w).screenshot_path.isSome = true →
      (checkWebsiteStatus (env w).probe w.url).status ≠ SiteStatus.up →
        (processWebsite env w).status = SiteStatus.up ∧
        (jsStartsWith w.url "https://" = true →
          (processWebsite env w).ssl_valid = true)) ∧
    ((processWebsite env w).screenshot_path.isSome = true →
        (processWebsite env w).error_message = none) ∧
    ((processWebsite env w).screenshot_path = none →
        (processWebsite env w).error_message =
          (checkWebsiteStatus (env w).probe w.url).error_message) := by
  by_cases hs : (takeScreenshot (env w).shot (env w).shotTs w.url w.id 0).1.isSome = true
  · by_cases hu : (checkWebsiteStatus (env w).probe w.url).status = SiteStatus.up
    · refine ⟨?_, ?_, ?_, ?_⟩ <;> simp [processWebsite, hs, hu]
      intro hnone
      rw [hnone] at hs
      simp at hs
    · refine ⟨?_, ?_, ?_, ?_⟩ <;> simp [processWebsite, hs, hu]
      · intro h
        exact Or.inl h
      · intro hnone
        rw [hnone] at hs
        simp at hs
  · have hnone : (takeScreenshot (env w).shot (env w).shotTs w.url w.id 0).1 = none := by
      cases h : (takeScreenshot (env w).shot (env w).shotTs w.url w.id 0).1
      · rfl
      · rw [h] at hs; simp at hs
    refine ⟨?_, ?_, ?_, ?_⟩ <;> simp [processWebsite, hnone]

/-- Claim C1 witness: under envA the probe says down but the capture
succeeds, so the final record is up with ssl_valid and no error. -/
theorem C1_reconciliation_override_witness :
    (processWebsite envA siteA).status = SiteStatus.up ∧
    (processWebsite envA siteA).ssl_valid = true ∧
    (processWebsite envA siteA).error_message = none := by
  have h := C1_reconciliation_override envA siteA
  have hs : (processWebsite envA siteA).screenshot_path.isSome = true := by
    rw [processWebsite_screenshot_path]
    simp [takeScreenshot, envA, siteEnvA]
  have hu : (checkWebsiteStatus (envA siteA).probe siteA.url).status ≠ SiteStatus.up := by
    decide
  have hh : jsStartsWith siteA.url "https://" = true := by decide
  exact ⟨h.1 hs, (h.2.1 hs hu).2 hh, h.2.2.1 hs⟩

/-- Claim C2: for every non-empty input list, POST answers ok with exactly
one result per input site in input order, the result at every index
carrying the id and url of the input site at that index. -/
theorem C2_output_matches_input (env : Website → SiteEnv) (ws : List Website)
    (h : ws ≠ []) :
    ∃ rs : List ScreenshotResult,
      POST env (some ws) = ApiResponse.ok rs ∧
      rs.length = ws.length ∧
      ∀ i : Nat, ∀ hi : i < ws.length, ∀ hri : i < rs.length,
        (rs.get ⟨i, hri⟩).id = (ws.get ⟨i, hi⟩).id ∧
        (rs.get ⟨i, hri⟩).url = (ws.get ⟨i, hi⟩).url := by
  refine ⟨ws.map (processWebsite env), ?_, by simp, ?_⟩
  · unfold POST
    simp [h]
  · intro i hi hri
    simp only [List.get_eq_getElem, List.getElem_map]
    exact ⟨rfl, rfl⟩

/-- Claim C2 witness: the singleton input list gives a matching singleton
output. -/
theorem C2_output_matches_input_witness :
    ∃ rs : List ScreenshotResult,
      POST envA (some [siteA]) = ApiResponse.ok rs ∧
      rs.length = [siteA].length ∧
      ∀ i : Nat, ∀ hi : i < [siteA].length, ∀ hri : i < rs.length,
        (rs.get ⟨i, hri⟩).id = ([siteA].get ⟨i, hi⟩).id ∧
        (rs.get ⟨i, hri⟩).url = ([siteA].get ⟨i, hi⟩).url :=
  C2_output_matches_input envA [siteA] (by simp)

/-- Claim C3: a missing or non-array websites field and the empty list are
both rejected with HTTP 400 and are never answered with a success
result. -/
theorem C3_invalid_input_rejected (env : Website → SiteEnv) :
    POST env none = ApiResponse.jsonError 400 "No websites provided" ∧
    POST env (some []) = ApiResponse.jsonError 400 "No websites provided" ∧
    (∀ rs : List ScreenshotResult, POST env none ≠ ApiResponse.ok rs) ∧
    (∀ rs : List ScreenshotResult, POST env (some []) ≠ ApiResponse.ok rs) := by
  refine ⟨rfl, rfl, ?_, ?_⟩ <;> intro rs h <;> simp [POST] at h

/-- Claim C3 witness: the rejection at the concrete environment envA. -/
theorem C3_invalid_input_rejected_witness :
    POST envA none = ApiResponse.jsonError 400 "No websites provided" ∧
    POST envA (some []) = ApiResponse.jsonError 400 "No websites provided" :=
  ⟨(C3_invalid_input_rejected envA).1, (C3_invalid_input_rejected envA).2.1⟩

/-- Claim C4: when the fetch produced a response, ssl_valid equals
(scheme is https) AND (response ok OR the selected certificate record is
valid); for a non-https URL ssl_valid is false on every branch and both
certificate strategies return the invalid record for every network
environment, hence without performing any check. -/
theorem C4_ssl_valid_folding (pe : ProbeEnv) (url : String) :
    (∀ ok : Bool, pe.fetch = FetchOutcome.response ok →
       (checkWebsiteStatus pe url).ssl_valid =
         (jsStartsWith url "https://" && (ok || (selectSslInfo pe url).ssl_valid))) ∧
    (jsStartsWith url "https://" = false →
       (checkWebsiteStatus pe url).ssl_valid = false ∧
       (∀ now : Int, ∀ tls : TlsOutcome,
          getSSLCertificateInfo now tls url = { ssl_valid := false }) ∧
       (∀ checker : CheckerOutcome,
          checkSSLWithChecker checker url = { ssl_valid := false })) := by
  constructor
  · intro ok hf
    unfold checkWebsiteStatus
    rw [hf]
  · intro hns
    refine ⟨?_, ?_, ?_⟩
    · unfold checkWebsiteStatus
      cases hf : pe.fetch with
      | response ok => simp [hns]
      | abortError => simp [mkErrorResult, selectSslInfo, hns]
      | failure msgO => simp [mkErrorResult, selectSslInfo, hns]
    · intro now tls
      unfold getSSLCertificateInfo
      rw [if_pos]
      rw [hns]
    · intro checker
      unfold checkSSLWithChecker
      rw [if_pos]
      rw [hns]

/-- Claim C4 witness: the folding at envA (https, response not ok, both
strategies failing) gives ssl_valid false, and a plain http URL gives
ssl_valid false with both strategies short-circuiting. -/
theorem C4_ssl_valid_folding_witness :
    (checkWebsiteStatus probeEnvA "https://example.com").ssl_valid = false ∧
    (checkWebsiteStatus probeEnvA "http://plain.example").ssl_valid = false ∧
    getSSLCertificateInfo 0 TlsOutcome.connectError "http://plain.example" =
      { ssl_valid := false } := by
  have h1 := (C4_ssl_valid_folding probeEnvA "https://example.com").1 false rfl
  have h2 := (C4_ssl_valid_folding probeEnvA "http://plain.example").2 (by decide)
  exact ⟨by rw [h1]; decide, h2.1, h2.2.1 0 TlsOutcome.connectError⟩

/-- Claim C5 counterexample: with an expired certificate the native
strategy produces diagnostic dates alongside valid = false, but the
composed fallback discards them: the selected record has no date fields
at all, contradicting the claim that the diagnostic dates either strategy
managed to produce are carried through. -/
theorem C5_counterexample :
    (getSSLCertificateInfo probeEnvC5.now probeEnvC5.tls
        "https://expired.example").ssl_valid = false ∧
    (getSSLCertificateInfo probeEnvC5.now probeEnvC5.tls
        "https://expired.example").ssl_expire_date = some 100 ∧
    (checkSSLWithChecker probeEnvC5.checker "https://expired.example").ssl_valid = false ∧
    selectSslInfo probeEnvC5 "https://expired.example" = { ssl_valid := false } ∧
    (selectSslInfo probeEnvC5 "https://expired.example").ssl_expire_date = none := by
  decide

/-- Claim C5 (amended): the native handshake strategy is consulted first
and supplies the record when it reports valid; the checker strategy is
consulted second and supplies the record when it alone reports valid;
when neither reports valid the composed record is the invalid record with
every date field absent, the diagnostics of both strategies being
discarded. -/
theorem C5_fallback_selection (pe : ProbeEnv) (url : String)
    (h : jsStartsWith url "https://" = true) :
    ((getSSLCertificateInfo pe.now pe.tls url).ssl_valid = true →
        selectSslInfo pe url = getSSLCertificateInfo pe.now pe.tls url) ∧
    ((getSSLCertificateInfo pe.now pe.tls url).ssl_valid = false →
      (checkSSLWithChecker pe.checker url).ssl_valid = true →
        selectSslInfo pe url = checkSSLWithChecker pe.checker url) ∧
    ((getSSLCertificateInfo pe.now pe.tls url).ssl_valid = false →
      (checkSSLWithChecker pe.checker url).ssl_valid = false →
        selectSslInfo pe url = { ssl_valid := false }) := by
  refine ⟨?_, ?_, ?_⟩ <;> unfold selectSslInfo <;> rw [if_pos h]
  · intro h1
    rw [if_pos h1]
  · intro h1 h2
    rw [if_neg (by simp [h1]), if_pos h2]
  · intro h1 h2
    rw [if_neg (by simp [h1]), if_neg (by simp [h2])]

/-- Claim C5 witness: at envA neither strategy reports valid, and the
selected record is the bare invalid record. -/
theorem C5_fallback_selection_witness :
    selectSslInfo probeEnvA "https://example.com" = { ssl_valid := false } :=
  ((C5_fallback_selection probeEnvA "https://example.com" (by decide)).2.2
    (by decide) (by decide))

/-- Claim C6: for a certificate carrying both dates, valid holds exactly
when now lies in the inclusive window from validFrom to validTo;
daysRemaining is the floor of (validTo - now) divided by one day; a
certificate whose expiry is in the past is invalid; expiry exactly 10
days ahead gives daysRemaining = 10. -/
theorem C6_certificate_window (now validFrom validTo : Int) (url : String)
    (h : jsStartsWith url "https://" = true) :
    ((getSSLCertificateInfo now (TlsOutcome.peerCert validFrom validTo) url).ssl_valid = true ↔
        (validFrom ≤ now ∧ now ≤ validTo)) ∧
    (getSSLCertificateInfo now (TlsOutcome.peerCert validFrom validTo) url).ssl_days_remaining =
      some (Int.fdiv (validTo - now) msPerDay) ∧
    (validTo < now →
      (getSSLCertificateInfo now (TlsOutcome.peerCert validFrom validTo) url).ssl_valid = false) ∧
    (validTo = now + 10 * msPerDay →
      (getSSLCertificateInfo now (TlsOutcome.peerCert validFrom validTo) url).ssl_days_remaining =
        some 10) := by
  unfold getSSLCertificateInfo
  rw [if_neg (by simp [h])]
  refine ⟨by simp, rfl, ?_, ?_⟩
  · intro hlt
    simp only [decide_eq_true_eq]
    simp
    intro _
    omega
  · intro hto
    simp only [hto]
    have h10 : now + 10 * msPerDay - now = 10 * msPerDay := by omega
    rw [h10, Int.mul_fdiv_cancel 10 (by decide)]

/-- Claim C6 witness: a certificate valid since timestamp -5 and expiring
exactly ten days after time zero is valid now with ten days remaining. -/
theorem C6_certificate_window_witness :
    ((getSSLCertificateInfo 0 (TlsOutcome.peerCert (-5) 864000000)
        "https://example.com").ssl_valid = true ↔
      ((-5 : Int) ≤ 0 ∧ (0 : Int) ≤ 864000000)) ∧
    (getSSLCertificateInfo 0 (TlsOutcome.peerCert (-5) 864000000)
        "https://example.com").ssl_days_remaining = some 10 := by
  have h := C6_certificate_window 0 (-5) 864000000 "https://example.com" (by decide)
  exact ⟨h.1, h.2.2.2 (by decide)⟩

/-- Claim C7: every thrown network error, whatever its shape (an abort, an
error with a truthy message, or an error with a falsy message), gives
status error; an abort gives exactly the message "Request timeout"; an
error with a truthy message gives that message truncated to at most 100
characters; an error with a falsy message gives the default
"Connection failed"; on every error path the certificate fields of the
result still come from the two-strategy inspector selection, so they can
be populated although the HTTP leg failed. -/
theorem C7_probe_error_path (pe : ProbeEnv) (url : String) :
    ((pe.fetch = FetchOutcome.abortError ∨
        (∃ m : Option String, pe.fetch = FetchOutcome.failure m)) →
       (checkWebsiteStatus pe url).status = SiteStatus.error) ∧
    (pe.fetch = FetchOutcome.abortError →
       (checkWebsiteStatus pe url).error_message = some "Request timeout") ∧
    (∀ m : String, pe.fetch = FetchOutcome.failure (some m) →
       (checkWebsiteStatus pe url).error_message = some (jsSubstringTo m 100) ∧
       (jsSubstringTo m 100).length ≤ 100) ∧
    (pe.fetch = FetchOutcome.failure none →
       (checkWebsiteStatus pe url).error_message = some "Connection failed") ∧
    ((pe.fetch = FetchOutcome.abortError ∨
        (∃ m : Option String, pe.fetch = FetchOutcome.failure m)) →
       (checkWebsiteStatus pe url).ssl_valid = (selectSslInfo pe url).ssl_valid ∧
       (checkWebsiteStatus pe url).ssl_expire_date = (selectSslInfo pe url).ssl_expire_date ∧
       (checkWebsiteStatus pe url).ssl_days_remaining =
         (selectSslInfo pe url).ssl_days_remaining) := by
  refine ⟨?_, ?_, ?_, ?_, ?_⟩
  · intro hf
    rcases hf with hf | ⟨m, hf⟩ <;>
      · unfold checkWebsiteStatus
        rw [hf]
        rfl
  · intro hf
    unfold checkWebsiteStatus
    rw [hf]
    rfl
  · intro m hf
    unfold checkWebsiteStatus
    rw [hf]
    refine ⟨rfl, ?_⟩
    show (String.mk (m.data.take 100)).length ≤ 100
    have hlen : (String.mk (m.data.take 100)).length = (m.data.take 100).length := rfl
    rw [hlen, List.length_take]
    omega
  · intro hf
    unfold checkWebsiteStatus
    rw [hf]
    rfl
  · intro hf
    rcases hf with hf | ⟨m, hf⟩ <;>
      · unfold checkWebsiteStatus
        rw [hf]
        exact ⟨rfl, rfl, rfl⟩

/-- Claim C7 witness: an aborted request with a currently-valid native
certificate gives status error, the timeout message, and a populated
expiry date; a thrown error with a falsy message gives status error and
the default message "Connection failed". -/
theorem C7_probe_error_path_witness :
    (checkWebsiteStatus probeEnvErr "https://example.com").status = SiteStatus.error ∧
    (checkWebsiteStatus probeEnvErr "https://example.com").error_message =
      some "Request timeout" ∧
    (checkWebsiteStatus probeEnvErr "https://example.com").ssl_expire_date = some 100 ∧
    (checkWebsiteStatus probeEnvFalsy "https://example.com").status = SiteStatus.error ∧
    (checkWebsiteStatus probeEnvFalsy "https://example.com").error_message =
      some "Connection failed" := by
  have h := C7_probe_error_path probeEnvErr "https://example.com"
  have hf := C7_probe_error_path probeEnvFalsy "https://example.com"
  have h2 := (h.2.2.2.2 (Or.inl rfl)).2.1
  exact ⟨h.1 (Or.inl rfl), h.2.1 rfl, by rw [h2]; decide,
    hf.1 (Or.inr ⟨none, rfl⟩), hf.2.2.2.1 rfl⟩

/-- Claim C8 counterexample: two URLs with the same host example.org
(which contains no listed domain) are classified differently once a
listed domain appears in the path, so the match is not restricted to the
host and the path does affect the classification. -/
theorem C8_counterexample :
    needsSpecialHandling "https://example.org/" = false ∧
    needsSpecialHandling "https://example.org/amazon.com" = true := by
  decide

/-- Claim C8 (amended): the classifier matches the lowercased whole URL
string against the fixed list: it returns Hardened exactly when some
listed domain occurs as a substring of the lowercased URL, and a listed
domain occurring anywhere in the URL, in particular in the path or query,
forces the Hardened classification. -/
theorem C8_whole_url_match (url : String) :
    (needsSpecialHandling url = true ↔
      ∃ site ∈ specialSites, jsIncludes (jsToLower url) site = true) ∧
    (∀ pre post : List Char,
      needsSpecialHandling (String.mk (pre ++ ("amazon.com".data ++ post))) = true) := by
  constructor
  · simp [needsSpecialHandling, List.any_eq_true]
  · intro pre post
    have hmem : "amazon.com" ∈ specialSites := by decide
    have hinc : jsIncludes
        (jsToLower (String.mk (pre ++ ("amazon.com".data ++ post)))) "amazon.com" = true := by
      show listHasSub
        ((pre ++ ("amazon.com".data ++ post)).map Char.toLower) "amazon.com".data = true
      rw [List.map_append, List.map_append]
      have hl : "amazon.com".data.map Char.toLower = "amazon.com".data := by decide
      rw [hl]
      exact listHasSub_append _ _ _
    unfold needsSpecialHandling
    rw [List.any_eq_true]
    exact ⟨"amazon.com", hmem, hinc⟩

/-- Claim C9: the capture retries at most once. A call whose retryCount is
already at least 1 performs exactly one browser launch; every call
performs at most two launches; two consecutive retriable failures give no
screenshot and exactly two launches; a non-retriable first failure gives
no screenshot after a single launch. -/
theorem C9_capture_retry_bound (shot : Nat → AttemptOutcome) (shotTs : Nat → Nat)
    (url : String) (id : Nat) :
    (∀ retryCount : Nat, 1 ≤ retryCount →
       (takeScreenshot shot shotTs url id retryCount).2 = 1) ∧
    (∀ retryCount : Nat, (takeScreenshot shot shotTs url id retryCount).2 ≤ 2) ∧
    (∀ m0 m1 : Option String,
       shot 0 = AttemptOutcome.failure m0 → retriableMessage m0 = true →
       shot 1 = AttemptOutcome.failure m1 →
       takeScreenshot shot shotTs url id 0 = (none, 2)) ∧
    (∀ m0 : Option String,
       shot 0 = AttemptOutcome.failure m0 → retriableMessage m0 = false →
       takeScreenshot shot shotTs url id 0 = (none, 1)) := by
  have hA : ∀ r : Nat, 1 ≤ r → (takeScreenshot shot shotTs url id r).2 = 1 := by
    intro r hr
    unfold takeScreenshot
    cases hsr : shot r with
    | success => simp
    | failure msg =>
      have hr0 : r ≠ 0 := by omega
      simp [hr0]
  refine ⟨hA, ?_, ?_, ?_⟩
  · intro r
    unfold takeScreenshot
    cases hsr : shot r with
    | success => simp
    | failure msg =>
      dsimp only
      by_cases hc : r < 1 ∧ retriableMessage msg = true
      · rw [dif_pos hc]
        have h1 := hA (r + 1) (by omega)
        simp [h1]
      · rw [dif_neg hc]
        simp
  · intro m0 m1 h0 hret h1
    have e1 : takeScreenshot shot shotTs url id 1 = (none, 1) := by
      unfold takeScreenshot
      rw [h1]
      dsimp only
      exact dif_neg (fun hcon => by omega)
    unfold takeScreenshot
    rw [h0]
    dsimp only
    rw [dif_pos ⟨by omega, hret⟩]
    simp [e1]
  · intro m0 h0 hret
    unfold takeScreenshot
    rw [h0]
    dsimp only
    refine dif_neg ?_
    intro hcon
    rw [hret] at hcon
    exact Bool.false_ne_true hcon.2

/-- Claim C9 witness: two consecutive navigation-timeout failures give no
screenshot path and exactly two browser launches. -/
theorem C9_capture_retry_bound_witness :
    takeScreenshot shotTimeoutTwice (fun _ => 3) "https://example.com" 9 0 = (none, 2) := by
  have h := (C9_capture_retry_bound shotTimeoutTwice (fun _ => 3) "https://example.com" 9).2.2.1
  exact h (some "Navigation timeout of 60000 ms exceeded")
    (some "Navigation timeout of 60000 ms exceeded") rfl (by decide) rfl

/-- Claim C10: the probe result carries response_time = some (t1 - t0) on
every branch, the final site record copies that value unchanged, it is
never absent, and whenever the second clock reading is at least the first
the carried value is non-negative. -/
theorem C10_response_time_present (env : Website → SiteEnv) (w : Website) :
    (checkWebsiteStatus (env w).probe w.url).response_time =
      some ((env w).probe.t1 - (env w).probe.t0) ∧
    (processWebsite env w).response_time =
      (checkWebsiteStatus (env w).probe w.url).response_time ∧
    ((processWebsite env w).response_time).isSome = true ∧
    ((env w).probe.t0 ≤ (env w).probe.t1 →
      ∀ t : Int, (processWebsite env w).response_time = some t → 0 ≤ t) := by
  have h1 := checkWebsiteStatus_response_time (env w).probe w.url
  have h2 := processWebsite_response_time env w
  refine ⟨h1, h2, ?_, ?_⟩
  · rw [h2, h1]
    rfl
  · intro hle t ht
    rw [h2, h1] at ht
    have heq : (env w).probe.t1 - (env w).probe.t0 = t := by
      injection ht
    omega

/-- Claim C10 witness: under envA the measured response time is 250 ms,
present and non-negative. -/
theorem C10_response_time_present_witness :
    (processWebsite envA siteA).response_time = some 250 ∧ (0 : Int) ≤ 250 := by
  have h := C10_response_time_present envA siteA
  have hval : (processWebsite envA siteA).response_time = some 250 := by
    rw [h.2.1, h.1]
    decide
  exact ⟨hval, h.2.2.2 (by decide) 250 hval⟩
